import Mathlib

/-!
Verification development for the mun-echarikkai rule-based risk pipeline.

The Python modules under `modules/` are shallowly embedded here:

* `modules/risk_scorer.py`      — `adjust_risk_score`
* `modules/risk_categorizer.py` — `categorize_risks` and its rule helpers
* `modules/formatter.py`        — `parse_llm_response` and its helpers
* `modules/entity_extractor.py` — `extract_entities` and `_match_first`

Python strings are embedded as `List Char` (`PyStr`).  String methods used
by the code (`strip`, `lower`, `splitlines`, `startswith`, `split(":", 1)`,
`isdigit`, `split()`) are modelled character-for-character below; whitespace
and line-break classification follows CPython's documented sets (ASCII and
the Unicode space/line-separator code points).  `str.lower`/`isdigit` are
modelled on their ASCII behaviour, which covers every constant the program
compares against.
-/

namespace MunEcharikkai

/-- Python strings, embedded as lists of characters. -/
abbrev PyStr := List Char

/-- Coerce a Lean string literal to the `PyStr` embedding. -/
def pys (s : String) : PyStr := s.toList

/-- CPython's whitespace class, as used by `str.strip()` / `str.split()` /
`str.isspace()`: ASCII whitespace, the C1/Unicode separator controls and the
Unicode space characters. -/
def pyIsSpace (c : Char) : Bool :=
  c = ' ' || c = '\t' || c = '\n' || c = '\x0b' || c = '\x0c' || c = '\r' ||
  c = '\x1c' || c = '\x1d' || c = '\x1e' || c = '\x1f' ||
  c = '\x85' || c = '\xa0' || c = ' ' ||
  (' ' ≤ c && c ≤ ' ') ||
  c = ' ' || c = ' ' || c = ' ' || c = ' ' || c = '　'

/-- `str.strip()` with no arguments: drop leading and trailing whitespace. -/
def pyStrip (s : PyStr) : PyStr :=
  ((s.dropWhile pyIsSpace).reverse.dropWhile pyIsSpace).reverse

/-- `str.lower()` (ASCII case mapping, which covers all constants compared
against by the embedded code). -/
def pyLower (s : PyStr) : PyStr := s.map Char.toLower

/-- `s.strip().lower()`, the normalisation applied to every categorical value
by `risk_categorizer.py` and `risk_scorer.py`. -/
def normTok (s : PyStr) : PyStr := pyLower (pyStrip s)

/-- Line-break characters recognised by `str.splitlines()` other than the
`"\r\n"` pair (which is handled separately). -/
def pyIsLineBreak (c : Char) : Bool :=
  c = '\n' || c = '\r' || c = '\x0b' || c = '\x0c' ||
  c = '\x1c' || c = '\x1d' || c = '\x1e' ||
  c = '\x85' || c = ' ' || c = ' '

/-- Worker for `str.splitlines()`: `acc` is the current line, reversed. -/
def pySplitlinesAux : PyStr → PyStr → List PyStr
  | acc, [] => if acc = [] then [] else [acc.reverse]
  | acc, '\r' :: '\n' :: rest => acc.reverse :: pySplitlinesAux [] rest
  | acc, c :: rest =>
    if pyIsLineBreak c then acc.reverse :: pySplitlinesAux [] rest
    else pySplitlinesAux (c :: acc) rest

/-- `str.splitlines()`: split on line boundaries, no trailing empty line. -/
def pySplitlines (s : PyStr) : List PyStr := pySplitlinesAux [] s

/-!  ## `modules/risk_scorer.py` — `adjust_risk_score`  -/

/-- The DecisionContext record.  `entity_extractor.extract_entities` always
produces exactly these six keys; `dict.get` on a missing key yields `None`,
so `Option PyStr` fields model every state the downstream readers observe. -/
structure Context where
  crop : Option PyStr := none
  month : Option PyStr := none
  location : Option PyStr := none
  irrigation : Option PyStr := none
  market_dependency : Option PyStr := none
  financial_dependency : Option PyStr := none
deriving DecidableEq

/-- WeatherSummary from `weather_service.get_weather_summary`: three optional
numeric fields (floats in Python, embedded as rationals; the only use in the
core is the exact comparison `rainfall == 0`). -/
structure Weather where
  temperature : Option ℚ := none
  rainfall : Option ℚ := none
  wind_speed : Option ℚ := none
deriving DecidableEq

/-- Rule 1 condition of `adjust_risk_score`:
`irrigation is None or irrigation.strip().lower() == "none"`. -/
def scorerIrrigationCond : Option PyStr → Bool
  | none => true
  | some s => normTok s == pys "none"

/-- Rule 2 condition of `adjust_risk_score`:
`rainfall is not None and rainfall == 0`. -/
def scorerRainfallCond : Option ℚ → Bool
  | none => false
  | some r => r == 0

/-- Rule 3 condition of `adjust_risk_score`:
`isinstance(financial_dependency, str) and financial_dependency.strip().lower() == "loan"`. -/
def scorerLoanCond : Option PyStr → Bool
  | none => false
  | some s => normTok s == pys "loan"

/-- `risk_scorer.adjust_risk_score`: three sequential `+1` adjustments to the
base score, then `max(1, min(10, score))`.  Python ints are unbounded, so the
base score is an `Int`. -/
def adjust_risk_score (base_score : Int) (context : Context) (weather : Weather) : Int :=
  let score := base_score
  let score := if scorerIrrigationCond context.irrigation then score + 1 else score
  let score := if scorerRainfallCond weather.rainfall then score + 1 else score
  let score := if scorerLoanCond context.financial_dependency then score + 1 else score
  max 1 (min 10 score)

/-- The empty dict `{}` passed as a context: every `dict.get` yields `None`. -/
def emptyContext : Context := {}

/-- The empty dict `{}` passed as a weather summary. -/
def emptyWeather : Weather := {}

/-!  ## `modules/formatter.py` — the reasoning-reply parser  -/

/-- The six section header markers of `_SECTION_HEADERS`, as an enumeration.
`_extract_sections` can only ever populate these six dictionary keys, so the
section dictionary is embedded as a record with one list per header. -/
inductive Header where
  | highRisks | mediumRisks | assumptions | mitigation | riskScore | confidenceLevel
deriving DecidableEq

/-- The marker text of each header, exactly as in `_SECTION_HEADERS`. -/
def headerStr : Header → PyStr
  | .highRisks => pys "HIGH_RISKS:"
  | .mediumRisks => pys "MEDIUM_RISKS:"
  | .assumptions => pys "ASSUMPTIONS:"
  | .mitigation => pys "MITIGATION:"
  | .riskScore => pys "RISK_SCORE:"
  | .confidenceLevel => pys "CONFIDENCE_LEVEL:"

/-- `_SECTION_HEADERS` in declaration order. -/
def sectionHeaders : List Header :=
  [.highRisks, .mediumRisks, .assumptions, .mitigation, .riskScore, .confidenceLevel]

/-- The sections dictionary built by `_extract_sections`: one (possibly empty)
line list per known header.  `sections.get(h, [])` in the Python caller makes
an absent key indistinguishable from an empty list, so empty-list defaults are
an exact model. -/
structure Sections where
  highRisks : List PyStr := []
  mediumRisks : List PyStr := []
  assumptions : List PyStr := []
  mitigation : List PyStr := []
  riskScore : List PyStr := []
  confidenceLevel : List PyStr := []
deriving DecidableEq

/-- Read one section's accumulated line list. -/
def getSec (s : Sections) : Header → List PyStr
  | .highRisks => s.highRisks
  | .mediumRisks => s.mediumRisks
  | .assumptions => s.assumptions
  | .mitigation => s.mitigation
  | .riskScore => s.riskScore
  | .confidenceLevel => s.confidenceLevel

/-- Append one line to a section (`sections[current_header].append(line)`). -/
def appendSec (s : Sections) : Header → PyStr → Sections
  | .highRisks, l => { s with highRisks := s.highRisks ++ [l] }
  | .mediumRisks, l => { s with mediumRisks := s.mediumRisks ++ [l] }
  | .assumptions, l => { s with assumptions := s.assumptions ++ [l] }
  | .mitigation, l => { s with mitigation := s.mitigation ++ [l] }
  | .riskScore, l => { s with riskScore := s.riskScore ++ [l] }
  | .confidenceLevel, l => { s with confidenceLevel := s.confidenceLevel ++ [l] }

/-- The first header (in `_SECTION_HEADERS` order) that the stripped line
starts with, mirroring the inner `for header in _SECTION_HEADERS` loop. -/
def findHeader (line : PyStr) : Option Header :=
  sectionHeaders.find? (fun h => (headerStr h).isPrefixOf line)

/-- One iteration of the `for raw_line in response.splitlines()` loop of
`_extract_sections`.  The state is the sections dictionary plus
`current_header`. -/
def sectionsStep (st : Sections × Option Header) (rawLine : PyStr) :
    Sections × Option Header :=
  let line := pyStrip rawLine
  match findHeader line with
  | some h =>
    let remainder := pyStrip (line.drop (headerStr h).length)
    if remainder = [] then (st.1, some h)
    else (appendSec st.1 h remainder, some h)
  | none =>
    match st.2 with
    | some h => (appendSec st.1 h line, some h)
    | none => st

/-- `formatter._extract_sections`. -/
def _extract_sections (response : PyStr) : Sections :=
  ((pySplitlines response).foldl sectionsStep ({}, none)).1

/-- The bullet-item cleaning of one line inside `_parse_bullet_lines`:
`some item` if the line survives, `none` if it is dropped. -/
def bulletItem (line : PyStr) : Option PyStr :=
  let stripped := pyStrip line
  if stripped = [] then none
  else
    let content :=
      if (pys "* ").isPrefixOf stripped || (pys "- ").isPrefixOf stripped ||
         (pys "• ").isPrefixOf stripped then
        pyStrip (stripped.drop 2)
      else if (pys "*").isPrefixOf stripped || (pys "-").isPrefixOf stripped ||
              (pys "•").isPrefixOf stripped then
        pyStrip (stripped.drop 1)
      else stripped
    if content = [] || [pys "none", pys "-", pys "n/a"].contains (pyLower content) then
      none
    else some content

/-- `formatter._parse_bullet_lines`. -/
def _parse_bullet_lines : List PyStr → List PyStr
  | [] => []
  | line :: rest =>
    match bulletItem line with
    | some item => item :: _parse_bullet_lines rest
    | none => _parse_bullet_lines rest

/-- Everything after the first `':'` (`token.split(":", 1)[-1]` when a colon
is present). -/
def afterFirstColon : PyStr → PyStr
  | [] => []
  | ':' :: rest => rest
  | _ :: rest => afterFirstColon rest

/-- The leading-digit-run scanner of `_parse_risk_score`: collect the first
maximal run of digits in the token (`elif digits: break`). -/
def firstDigitRun : PyStr → PyStr → PyStr
  | digits, [] => digits
  | digits, c :: rest =>
    if c.isDigit then firstDigitRun (digits ++ [c]) rest
    else if digits ≠ [] then digits
    else firstDigitRun [] rest

/-- `int(digits)` for a string of ASCII digits. -/
def digitsToNat (digits : PyStr) : Nat :=
  digits.foldl (fun acc c => 10 * acc + (c.toNat - '0'.toNat)) 0

/-- The per-line body of the `_parse_risk_score` loop: `some score` exactly
when the line makes the loop `return score`. -/
def lineScore (line : PyStr) : Option Nat :=
  let token := pyStrip line
  let token := if token.contains ':' then pyStrip (afterFirstColon token) else token
  let digits := firstDigitRun [] token
  if digits ≠ [] then
    let score := digitsToNat digits
    if 1 ≤ score ∧ score ≤ 10 then some score else none
  else none

/-- `formatter._parse_risk_score`. -/
def _parse_risk_score : List PyStr → Option Nat
  | [] => none
  | line :: rest =>
    match lineScore line with
    | some score => some score
    | none => _parse_risk_score rest

/-- First whitespace-delimited word of a token (`token.split()[0]`, or `""`
when the token has no words). -/
def firstWord (token : PyStr) : PyStr :=
  (token.dropWhile pyIsSpace).takeWhile (fun c => !pyIsSpace c)

/-- The per-line body of the `_parse_confidence_level` loop. -/
def lineConfidence (line : PyStr) : Option PyStr :=
  let token := pyLower (pyStrip line)
  let token := if token.contains ':' then pyStrip (afterFirstColon token) else token
  let word := firstWord token
  if [pys "low", pys "medium", pys "high"].contains word then some word else none

/-- `formatter._parse_confidence_level`. -/
def _parse_confidence_level : List PyStr → Option PyStr
  | [] => none
  | line :: rest =>
    match lineConfidence line with
    | some word => some word
    | none => _parse_confidence_level rest

/-- The ReasoningReply record returned by `parse_llm_response`: the dictionary
always carries exactly these six keys. -/
structure ReasoningReply where
  high_risks : List PyStr
  medium_risks : List PyStr
  assumptions : List PyStr
  mitigation : List PyStr
  risk_score : Option Nat
  confidence_level : Option PyStr
deriving DecidableEq

/-- The `_empty` safe-default dictionary of `parse_llm_response`. -/
def emptyReply : ReasoningReply :=
  { high_risks := [], medium_risks := [], assumptions := [], mitigation := [],
    risk_score := none, confidence_level := none }

/-- `formatter.parse_llm_response`.  The Python type guard (`TypeError` on a
non-`str` argument) is enforced by the embedding's type. -/
def parse_llm_response (response : PyStr) : ReasoningReply :=
  if pyStrip response = [] then emptyReply
  else
    let sections := _extract_sections response
    { high_risks := _parse_bullet_lines (getSec sections .highRisks),
      medium_risks := _parse_bullet_lines (getSec sections .mediumRisks),
      assumptions := _parse_bullet_lines (getSec sections .assumptions),
      mitigation := _parse_bullet_lines (getSec sections .mitigation),
      risk_score := _parse_risk_score (getSec sections .riskScore),
      confidence_level := _parse_confidence_level (getSec sections .confidenceLevel) }

/-!  ## `modules/risk_categorizer.py` — `categorize_risks`  -/

/-- Risk category label constants. -/
def WEATHER_RISK : String := "Weather Risk"

def RESOURCE_RISK : String := "Resource Risk"

def MARKET_RISK : String := "Market Risk"

def FINANCIAL_RISK : String := "Financial Risk"

def OPERATIONAL_RISK : String := "Operational Risk"

/-- `_CROP_SEASON_MAP`: crop → months considered in-season. -/
def _CROP_SEASON_MAP : List (PyStr × List PyStr) :=
  [ (pys "rice", [pys "june", pys "july", pys "august", pys "september",
      pys "november", pys "december", pys "january"]),
    (pys "wheat", [pys "october", pys "november", pys "december", pys "january",
      pys "february"]),
    (pys "maize", [pys "june", pys "july", pys "august", pys "september", pys "october"]),
    (pys "sugarcane", [pys "january", pys "february", pys "march", pys "october",
      pys "november"]),
    (pys "cotton", [pys "june", pys "july", pys "august", pys "september"]),
    (pys "groundnut", [pys "june", pys "july", pys "august", pys "september",
      pys "october"]),
    (pys "soybean", [pys "june", pys "july", pys "august", pys "september"]),
    (pys "tomato", [pys "october", pys "november", pys "december", pys "january",
      pys "february"]),
    (pys "onion", [pys "october", pys "november", pys "december", pys "january",
      pys "february"]),
    (pys "banana", [pys "january", pys "february", pys "march", pys "april",
      pys "may", pys "june", pys "july", pys "august"]),
    (pys "mango", [pys "january", pys "february", pys "march", pys "april", pys "may"]),
    (pys "turmeric", [pys "june", pys "july", pys "august"]),
    (pys "chilli", [pys "july", pys "august", pys "september", pys "october"]),
    (pys "pulses", [pys "june", pys "july", pys "october", pys "november"]),
    (pys "vegetables", [pys "october", pys "november", pys "december", pys "january",
      pys "february", pys "march"]) ]

/-- `_HIGH_MARKET_CROPS`. -/
def _HIGH_MARKET_CROPS : List PyStr :=
  [pys "cotton", pys "sugarcane", pys "tomato", pys "onion", pys "chilli",
   pys "groundnut", pys "soybean", pys "mango"]

/-- `_LOAN_DEPENDENCIES`. -/
def _LOAN_DEPENDENCIES : List PyStr := [pys "loan"]

/-- `_PARTIAL_FINANCIAL_DEPS`. -/
def _PARTIAL_FINANCIAL_DEPS : List PyStr := [pys "subsidy", pys "insurance"]

/-- `_NO_IRRIGATION_VALUES`. -/
def _NO_IRRIGATION_VALUES : List PyStr := [pys "rainfed", pys "none", pys ""]

/-- `_HIGH_MARKET_DEPENDENCY_VALUES`. -/
def _HIGH_MARKET_DEPENDENCY_VALUES : List PyStr := [pys "high", pys "medium"]

/-- `risk_categorizer._has_resource_risk`. -/
def _has_resource_risk : Option PyStr → Bool
  | none => true
  | some irrigation => _NO_IRRIGATION_VALUES.contains (normTok irrigation)

/-- `risk_categorizer._has_weather_risk`. -/
def _has_weather_risk (crop month irrigation : Option PyStr) : Bool :=
  (match irrigation with
   | none => false
   | some s => normTok s == pys "rainfed") ||
  (match crop, month with
   | some c, some m =>
     (match _CROP_SEASON_MAP.lookup (normTok c) with
      | some season => !(season.contains (normTok m))
      | none => false)
   | _, _ => false)

/-- `risk_categorizer._has_market_risk`. -/
def _has_market_risk (crop market_dependency : Option PyStr) : Bool :=
  (match market_dependency with
   | none => false
   | some s => _HIGH_MARKET_DEPENDENCY_VALUES.contains (normTok s)) ||
  (match crop with
   | none => false
   | some c => _HIGH_MARKET_CROPS.contains (normTok c))

/-- `risk_categorizer._has_financial_risk`. -/
def _has_financial_risk : Option PyStr → Bool
  | none => false
  | some s => _LOAN_DEPENDENCIES.contains (normTok s)

/-- A critical field counts as missing when it is `None` or empty after
`strip()` (the `missing_count` predicate of `_has_operational_risk`). -/
def fieldMissing : Option PyStr → Bool
  | none => true
  | some s => pyStrip s == ([] : List Char)

/-- `risk_categorizer._has_operational_risk`. -/
def _has_operational_risk (crop month location irrigation financial_dependency :
    Option PyStr) : Bool :=
  let missing_count := ([crop, month, location, irrigation].countP fieldMissing)
  decide (2 ≤ missing_count) ||
  (match financial_dependency with
   | none => false
   | some s => _PARTIAL_FINANCIAL_DEPS.contains (normTok s))

/-- The `risks` list of `categorize_risks` before deduplication, as a function
of the five rule outcomes: each `True` rule appends its label, in fixed order. -/
def riskList (b1 b2 b3 b4 b5 : Bool) : List String :=
  (if b1 then [WEATHER_RISK] else []) ++
  (if b2 then [RESOURCE_RISK] else []) ++
  (if b3 then [MARKET_RISK] else []) ++
  (if b4 then [FINANCIAL_RISK] else []) ++
  (if b5 then [OPERATIONAL_RISK] else [])

/-- The seen-set deduplication loop at the end of `categorize_risks`. -/
def dedupKeepOrder (seen : List String) : List String → List String
  | [] => []
  | r :: rest =>
    if r ∈ seen then dedupKeepOrder seen rest
    else r :: dedupKeepOrder (r :: seen) rest

/-- `risk_categorizer.categorize_risks`.  The Python type guard (`TypeError`
on a non-`dict` argument) is enforced by the embedding's type; `dict.get` on
absent keys yields `None`, modelled by the `Option` fields of `Context`. -/
def categorize_risks (context : Context) : List String :=
  dedupKeepOrder []
    (riskList
      (_has_weather_risk context.crop context.month context.irrigation)
      (_has_resource_risk context.irrigation)
      (_has_market_risk context.crop context.market_dependency)
      (_has_financial_risk context.financial_dependency)
      (_has_operational_risk context.crop context.month context.location
        context.irrigation context.financial_dependency))

/-!  ## `modules/entity_extractor.py` — `extract_entities`  -/

/-- `\w` of Python's `re` module: word constituent characters (ASCII model;
every registry keyword consists of ASCII letters, hyphens, slashes and
spaces). -/
def isWordChar (c : Char) : Bool := c.isAlphanum || c = '_'

/-- A word boundary exists before the match when there is no preceding word
character (`prev` is the character immediately before the candidate match
position, `none` at the start of the text). -/
def boundaryBefore : Option Char → Bool
  | none => true
  | some c => !isWordChar c

/-- A word boundary exists after the match when the following text does not
begin with a word character. -/
def boundaryAfter : PyStr → Bool
  | [] => true
  | c :: _ => !isWordChar c

/-- Worker for `re.search(rf"\b{re.escape(keyword)}\b", text)` for keywords
that begin and end with word characters (true of every single-word registry
keyword): try a boundary-delimited match at each position. -/
def wbSearchAux (kw : PyStr) (prev : Option Char) : PyStr → Bool
  | [] => boundaryBefore prev && kw.isPrefixOf ([] : PyStr) && true
  | c :: rest =>
    (boundaryBefore prev && kw.isPrefixOf (c :: rest) &&
      boundaryAfter ((c :: rest).drop kw.length)) ||
    wbSearchAux kw (some c) rest

/-- Whole-word-boundary search of a single-word keyword in the text. -/
def wbMatch (kw text : PyStr) : Bool := wbSearchAux kw none text

/-- Plain substring containment (`keyword in text`). -/
def substrMatch (kw : PyStr) : PyStr → Bool
  | [] => kw.isPrefixOf ([] : PyStr)
  | c :: rest => kw.isPrefixOf (c :: rest) || substrMatch kw rest

/-- One keyword test of `_match_first`: plain substring containment for
multi-word phrases, word-boundary search for single-word keywords. -/
def keywordMatch (text kw : PyStr) : Bool :=
  if kw.contains ' ' then substrMatch kw text else wbMatch kw text

/-- Whether any keyword of one registry entry matches the text. -/
def entryMatches (text : PyStr) (keywords : List PyStr) : Bool :=
  keywords.any (keywordMatch text)

/-- `entity_extractor._match_first`: canonical label of the first registry
entry (in declaration order) with a matching keyword. -/
def _match_first (text : PyStr) : List (PyStr × List PyStr) → Option PyStr
  | [] => none
  | (canonical, keywords) :: rest =>
    if entryMatches text keywords then some canonical
    else _match_first text rest

/-- `_CROP_KEYWORDS`. -/
def _CROP_KEYWORDS : List (PyStr × List PyStr) :=
  [ (pys "rice", [pys "rice", pys "paddy", pys "samba", pys "kuruvai", pys "thaladi"]),
    (pys "wheat", [pys "wheat"]),
    (pys "maize", [pys "maize", pys "corn"]),
    (pys "sugarcane", [pys "sugarcane", pys "sugar cane"]),
    (pys "cotton", [pys "cotton"]),
    (pys "groundnut", [pys "groundnut", pys "peanut"]),
    (pys "soybean", [pys "soybean", pys "soya"]),
    (pys "tomato", [pys "tomato"]),
    (pys "onion", [pys "onion"]),
    (pys "banana", [pys "banana"]),
    (pys "mango", [pys "mango"]),
    (pys "turmeric", [pys "turmeric"]),
    (pys "chilli", [pys "chilli", pys "chili", pys "red pepper"]),
    (pys "pulses", [pys "pulses", pys "dal", pys "lentil", pys "moong", pys "urad",
      pys "toor", pys "arhar"]),
    (pys "vegetables", [pys "vegetables", pys "greens", pys "leafy"]) ]

/-- `_MONTH_KEYWORDS`. -/
def _MONTH_KEYWORDS : List (PyStr × List PyStr) :=
  [ (pys "january", [pys "january", pys "jan"]),
    (pys "february", [pys "february", pys "feb"]),
    (pys "march", [pys "march", pys "mar"]),
    (pys "april", [pys "april", pys "apr"]),
    (pys "may", [pys "may"]),
    (pys "june", [pys "june", pys "jun"]),
    (pys "july", [pys "july", pys "jul"]),
    (pys "august", [pys "august", pys "aug"]),
    (pys "september", [pys "september", pys "sep", pys "sept"]),
    (pys "october", [pys "october", pys "oct"]),
    (pys "november", [pys "november", pys "nov"]),
    (pys "december", [pys "december", pys "dec"]) ]

/-- `_LOCATION_KEYWORDS`. -/
def _LOCATION_KEYWORDS : List (PyStr × List PyStr) :=
  [ (pys "tamil_nadu", [pys "tamil nadu", pys "tamilnadu"]),
    (pys "andhra_pradesh", [pys "andhra pradesh", pys "andhra", pys "ap"]),
    (pys "telangana", [pys "telangana"]),
    (pys "karnataka", [pys "karnataka"]),
    (pys "kerala", [pys "kerala"]),
    (pys "maharashtra", [pys "maharashtra"]),
    (pys "gujarat", [pys "gujarat"]),
    (pys "rajasthan", [pys "rajasthan"]),
    (pys "punjab", [pys "punjab"]),
    (pys "haryana", [pys "haryana"]),
    (pys "uttar_pradesh", [pys "uttar pradesh", pys "up"]),
    (pys "madhya_pradesh", [pys "madhya pradesh", pys "mp"]),
    (pys "west_bengal", [pys "west bengal"]),
    (pys "odisha", [pys "odisha", pys "orissa"]),
    (pys "bihar", [pys "bihar"]),
    (pys "assam", [pys "assam"]),
    (pys "delhi", [pys "delhi"]) ]

/-- `_IRRIGATION_KEYWORDS`. -/
def _IRRIGATION_KEYWORDS : List (PyStr × List PyStr) :=
  [ (pys "irrigated", [pys "irrigated", pys "irrigation", pys "canal", pys "borewell",
      pys "bore well", pys "well water", pys "drip", pys "sprinkler", pys "pump",
      pys "tank fed", pys "river fed"]),
    (pys "rainfed", [pys "rainfed", pys "rain fed", pys "rain-fed",
      pys "depends on rain", pys "dependent on rain", pys "monsoon",
      pys "no irrigation"]),
    (pys "partially_irrigated", [pys "partially irrigated", pys "partial irrigation",
      pys "supplemental irrigation", pys "mixed irrigation"]) ]

/-- `_MARKET_DEPENDENCY_KEYWORDS`. -/
def _MARKET_DEPENDENCY_KEYWORDS : List (PyStr × List PyStr) :=
  [ (pys "high", [pys "market dependent", pys "sells in market", pys "market price",
      pys "price fluctuation", pys "mandi", pys "wholesale market", pys "export",
      pys "price risk", pys "market risk", pys "dependent on market"]),
    (pys "low", [pys "self consumption", pys "self-consumption", pys "own use",
      pys "subsistence", pys "not market dependent", pys "local use"]),
    (pys "medium", [pys "partly sells", pys "partial market", pys "some market",
      pys "local market", pys "village market"]) ]

/-- `_FINANCIAL_DEPENDENCY_KEYWORDS`. -/
def _FINANCIAL_DEPENDENCY_KEYWORDS : List (PyStr × List PyStr) :=
  [ (pys "loan", [pys "loan", pys "credit", pys "borrowed", pys "debt", pys "kcc",
      pys "kisan credit", pys "bank loan", pys "microfinance", pys "moneylender",
      pys "money lender", pys "owe", pys "repay", pys "installment"]),
    (pys "subsidy", [pys "subsidy", pys "government support", pys "pm kisan",
      pys "scheme", pys "grant", pys "free input", pys "aided"]),
    (pys "self_funded", [pys "self funded", pys "self-funded", pys "own funds",
      pys "no loan", pys "no credit", pys "savings", pys "own investment"]),
    (pys "insurance", [pys "insurance", pys "pmfby", pys "crop insurance",
      pys "insured"]) ]

/-- `entity_extractor.extract_entities`.  The `TypeError` guard is enforced by
the embedding's type; an empty-after-strip input raises `ValueError`, modelled
as the `none` outcome.  A successful call returns the six-key record. -/
def extract_entities (plan_text : PyStr) : Option Context :=
  if pyStrip plan_text = [] then none
  else
    let text := pyLower plan_text
    some
      { crop := _match_first text _CROP_KEYWORDS,
        month := _match_first text _MONTH_KEYWORDS,
        location := _match_first text _LOCATION_KEYWORDS,
        irrigation := _match_first text _IRRIGATION_KEYWORDS,
        market_dependency := _match_first text _MARKET_DEPENDENCY_KEYWORDS,
        financial_dependency := _match_first text _FINANCIAL_DEPENDENCY_KEYWORDS }

/-!  ## Helper lemmas  -/

/-- The fixed five-label enumeration, in rule-evaluation order. -/
def fixedRiskLabels : List String :=
  [WEATHER_RISK, RESOURCE_RISK, MARKET_RISK, FINANCIAL_RISK, OPERATIONAL_RISK]

lemma dedup_riskList_sublist :
    ∀ b1 b2 b3 b4 b5 : Bool,
      (dedupKeepOrder [] (riskList b1 b2 b3 b4 b5)).Sublist fixedRiskLabels := by
  decide

lemma fixedRiskLabels_nodup : fixedRiskLabels.Nodup := by decide

lemma pyStrip_eq_nil_of_forall_space (s : PyStr) (h : ∀ c ∈ s, pyIsSpace c = true) :
    pyStrip s = [] := by
  have h1 : s.dropWhile pyIsSpace = [] := List.dropWhile_eq_nil_iff.mpr h
  unfold pyStrip
  rw [h1]
  rfl

/-!  ## Claim theorems  -/

/-- C1: `parse_llm_response` is a total function of the input string (its
embedding above is a total Lean function, so no string input can raise), and
every empty or whitespace-only input yields the reply record with all four
lists empty and both scalars unset. -/
theorem parse_llm_response_total_whitespace_empty :
    ∀ s : PyStr, (∀ c ∈ s, pyIsSpace c = true) → parse_llm_response s = emptyReply := by
  intro s h
  unfold parse_llm_response
  rw [if_pos (pyStrip_eq_nil_of_forall_space s h)]

/-- Witness for C1 at the concrete whitespace-only input `"  \n\t "`. -/
theorem parse_llm_response_total_whitespace_empty_witness :
    parse_llm_response (pys "  \n\t ") = emptyReply :=
  parse_llm_response_total_whitespace_empty (pys "  \n\t ") (by decide)

/-- C2: for every context, `categorize_risks` returns a sublist (hence a
subset, in the fixed order, without duplicates) of the five fixed labels, and
the empty dict yields exactly `["Resource Risk", "Operational Risk"]`. -/
theorem categorize_risks_sublist_of_fixed_labels :
    (∀ ctx : Context,
        (categorize_risks ctx).Sublist fixedRiskLabels ∧ (categorize_risks ctx).Nodup)
    ∧ categorize_risks emptyContext = [RESOURCE_RISK, OPERATIONAL_RISK] := by
  constructor
  · intro ctx
    have h :=
      dedup_riskList_sublist
        (_has_weather_risk ctx.crop ctx.month ctx.irrigation)
        (_has_resource_risk ctx.irrigation)
        (_has_market_risk ctx.crop ctx.market_dependency)
        (_has_financial_risk ctx.financial_dependency)
        (_has_operational_risk ctx.crop ctx.month ctx.location ctx.irrigation
          ctx.financial_dependency)
    exact ⟨h, fixedRiskLabels_nodup.sublist h⟩
  · decide

/-- C3 counterexample: the claim asserts `adjust_risk_score(1, {}, {}) = 1`,
but on the code the missing-irrigation rule fires (`{}.get("irrigation")` is
`None`), so the result is `2`. -/
theorem adjust_risk_score_empty_dicts_counterexample :
    adjust_risk_score 1 emptyContext emptyWeather = 2 ∧
      adjust_risk_score 1 emptyContext emptyWeather ≠ 1 := by
  decide

/-- C3 amended: the first two evaluations hold as claimed; on empty dicts the
base score 1 becomes 2 (the `+1` irrigation rule fires; no clamping needed). -/
theorem adjust_risk_score_examples :
    adjust_risk_score 5
        { irrigation := none, financial_dependency := some (pys "loan") }
        { rainfall := some 0 } = 8 ∧
    adjust_risk_score 9
        { irrigation := none, financial_dependency := some (pys "loan") }
        { rainfall := some 0 } = 10 ∧
    adjust_risk_score 1 emptyContext emptyWeather = 2 := by
  decide

/-- C4: `adjust_risk_score` equals the clamp to `[1, 10]` of the base plus
the three `+1` adjustments, its result always lies in `[1, 10]`, and each
adjustment condition holds exactly as the spec words it (unset-or-"none"
irrigation; present-and-zero rainfall, absent rainfall never adds; "loan"
financial dependency). -/
theorem adjust_risk_score_clamped_sum :
    ∀ (base : Int) (ctx : Context) (w : Weather),
      adjust_risk_score base ctx w =
        max 1 (min 10 (base
          + (if scorerIrrigationCond ctx.irrigation then 1 else 0)
          + (if scorerRainfallCond w.rainfall then 1 else 0)
          + (if scorerLoanCond ctx.financial_dependency then 1 else 0)))
      ∧ 1 ≤ adjust_risk_score base ctx w
      ∧ adjust_risk_score base ctx w ≤ 10
      ∧ (scorerIrrigationCond ctx.irrigation = true ↔
          ctx.irrigation = none ∨ ∃ s, ctx.irrigation = some s ∧ normTok s = pys "none")
      ∧ (scorerRainfallCond w.rainfall = true ↔ ∃ r, w.rainfall = some r ∧ r = 0)
      ∧ (scorerLoanCond ctx.financial_dependency = true ↔
          ∃ s, ctx.financial_dependency = some s ∧ normTok s = pys "loan") := by
  intro base ctx w
  refine ⟨?_, ?_, ?_, ?_, ?_, ?_⟩
  · cases h1 : scorerIrrigationCond ctx.irrigation <;>
      cases h2 : scorerRainfallCond w.rainfall <;>
        cases h3 : scorerLoanCond ctx.financial_dependency <;>
          simp [adjust_risk_score, h1, h2, h3]
  · exact le_max_left 1 _
  · exact max_le (by norm_num) (min_le_left 10 _)
  · cases hi : ctx.irrigation <;> simp [scorerIrrigationCond, hi]
  · cases hr : w.rainfall <;> simp [scorerRainfallCond, hr]
  · cases hf : ctx.financial_dependency <;> simp [scorerLoanCond, hf]

lemma lineScore_some_bounds (line : PyStr) (n : Nat) (h : lineScore line = some n) :
    1 ≤ n ∧ n ≤ 10 := by
  simp only [lineScore] at h
  repeat' split at h
  all_goals
    first
      | (cases h; assumption)
      | simp at h

/-- C5: out-of-range scores are skipped rather than clamped (`RISK_SCORE: 15`
leaves the field unset), the round-trip reply parses to exactly `7` and
`"medium"`, a line with no in-range integer is skipped in favour of later
lines, the first qualifying line wins, and any parsed score lies in
`[1, 10]`. -/
theorem parse_risk_score_first_in_range_line :
    (parse_llm_response (pys "RISK_SCORE: 15")).risk_score = none
    ∧ (parse_llm_response (pys "RISK_SCORE: 7\nCONFIDENCE_LEVEL: medium")).risk_score = some 7
    ∧ (parse_llm_response (pys "RISK_SCORE: 7\nCONFIDENCE_LEVEL: medium")).confidence_level =
        some (pys "medium")
    ∧ (∀ line rest, lineScore line = none →
        _parse_risk_score (line :: rest) = _parse_risk_score rest)
    ∧ (∀ line rest n, lineScore line = some n →
        _parse_risk_score (line :: rest) = some n)
    ∧ (∀ lines n, _parse_risk_score lines = some n → 1 ≤ n ∧ n ≤ 10) := by
  refine ⟨by decide, by decide, by decide, ?_, ?_, ?_⟩
  · intro line rest h
    simp [_parse_risk_score, h]
  · intro line rest n h
    simp [_parse_risk_score, h]
  · intro lines
    induction lines with
    | nil => intro n h; exact absurd h (by simp [_parse_risk_score])
    | cons line rest ih =>
      intro n h
      cases hl : lineScore line with
      | none =>
        rw [show _parse_risk_score (line :: rest) = _parse_risk_score rest by
          simp [_parse_risk_score, hl]] at h
        exact ih n h
      | some v =>
        rw [show _parse_risk_score (line :: rest) = some v by
          simp [_parse_risk_score, hl]] at h
        cases h
        exact lineScore_some_bounds line _ hl

/-- Witness for C5's universally quantified conjuncts at concrete lines:
`"15x"` has no in-range integer and is skipped; `"7"` qualifies and wins;
the parsed score `7` is within bounds. -/
theorem parse_risk_score_first_in_range_line_witness :
    _parse_risk_score [pys "15x", pys "7"] = _parse_risk_score [pys "7"]
    ∧ _parse_risk_score [pys "7", pys "15x"] = some 7
    ∧ (1 ≤ 7 ∧ 7 ≤ 10) :=
  ⟨parse_risk_score_first_in_range_line.2.2.2.1 (pys "15x") [pys "7"] (by decide),
   parse_risk_score_first_in_range_line.2.2.2.2.1 (pys "7") [pys "15x"] 7 (by decide),
   parse_risk_score_first_in_range_line.2.2.2.2.2 [pys "7", pys "15x"] 7 (by decide)⟩

lemma mem_dedup_riskList_weather :
    ∀ b1 b2 b3 b4 b5 : Bool,
      WEATHER_RISK ∈ dedupKeepOrder [] (riskList b1 b2 b3 b4 b5) ↔ b1 = true := by
  decide

lemma mem_dedup_riskList_resource :
    ∀ b1 b2 b3 b4 b5 : Bool,
      RESOURCE_RISK ∈ dedupKeepOrder [] (riskList b1 b2 b3 b4 b5) ↔ b2 = true := by
  decide

/-- `True` exactly when the context's irrigation value is not `"rainfed"`
after trimming and lowercasing (vacuously true when unset). -/
def irrNotRainfed : Option PyStr → Bool
  | none => true
  | some s => !(normTok s == pys "rainfed")

/-- C7: when irrigation is not `"rainfed"`, Weather Risk fires exactly when
crop and month are both present, the normalised crop has a season-table
entry, and the normalised month is outside that season set; a missing crop
or month, or a crop unknown to the table, never fires the sub-rule. -/
theorem weather_risk_seasonal_mismatch :
    ∀ ctx : Context, irrNotRainfed ctx.irrigation = true →
      (WEATHER_RISK ∈ categorize_risks ctx ↔
        ∃ c m season, ctx.crop = some c ∧ ctx.month = some m ∧
          _CROP_SEASON_MAP.lookup (normTok c) = some season ∧ normTok m ∉ season) := by
  intro ctx h
  rw [show (WEATHER_RISK ∈ categorize_risks ctx) =
      (WEATHER_RISK ∈ dedupKeepOrder []
        (riskList (_has_weather_risk ctx.crop ctx.month ctx.irrigation)
          (_has_resource_risk ctx.irrigation)
          (_has_market_risk ctx.crop ctx.market_dependency)
          (_has_financial_risk ctx.financial_dependency)
          (_has_operational_risk ctx.crop ctx.month ctx.location ctx.irrigation
            ctx.financial_dependency))) from rfl,
    mem_dedup_riskList_weather]
  unfold _has_weather_risk
  have h1 : (match ctx.irrigation with
      | none => false
      | some s => normTok s == pys "rainfed") = false := by
    cases hi : ctx.irrigation with
    | none => rfl
    | some s =>
      simp only [irrNotRainfed, hi, Bool.not_eq_eq_eq_not, Bool.not_true] at h
      simpa using h
  rw [h1, Bool.false_or]
  cases hc : ctx.crop with
  | none => simp
  | some c =>
    cases hm : ctx.month with
    | none => simp
    | some m =>
      cases hl : _CROP_SEASON_MAP.lookup (normTok c) with
      | none => simp [hl]
      | some season => simp [hl]

/-- A concrete context for the C7 witness: drip irrigation, rice in March
(outside rice's season set). -/
def dripMarchRiceContext : Context :=
  { crop := some (pys "rice"), month := some (pys "march"),
    irrigation := some (pys "drip") }

/-- Witness for C7 at a concrete non-rainfed context. -/
theorem weather_risk_seasonal_mismatch_witness :
    WEATHER_RISK ∈ categorize_risks dripMarchRiceContext ↔
      ∃ c m season, dripMarchRiceContext.crop = some c ∧
        dripMarchRiceContext.month = some m ∧
        _CROP_SEASON_MAP.lookup (normTok c) = some season ∧ normTok m ∉ season :=
  weather_risk_seasonal_mismatch dripMarchRiceContext (by decide)

/-- The worked example of C8: rainfed rice in June in Tamil Nadu with a loan. -/
def rainfedLoanContext : Context :=
  { crop := some (pys "rice"), month := some (pys "june"),
    location := some (pys "tamil_nadu"), irrigation := some (pys "rainfed"),
    market_dependency := none, financial_dependency := some (pys "loan") }

/-- C8: an exactly-`"rainfed"` irrigation value makes Weather Risk and
Resource Risk both fire (deliberate overlap), and the worked example returns
exactly `["Weather Risk", "Resource Risk", "Financial Risk"]`. -/
theorem rainfed_triggers_weather_and_resource :
    (∀ ctx : Context, ctx.irrigation = some (pys "rainfed") →
        WEATHER_RISK ∈ categorize_risks ctx ∧ RESOURCE_RISK ∈ categorize_risks ctx)
    ∧ categorize_risks rainfedLoanContext =
        [WEATHER_RISK, RESOURCE_RISK, FINANCIAL_RISK] := by
  constructor
  · intro ctx h
    constructor
    · refine (mem_dedup_riskList_weather _ _ _ _ _).mpr ?_
      rw [h]
      unfold _has_weather_risk
      have hb : (normTok (pys "rainfed") == pys "rainfed") = true := by decide
      simp [hb]
    · refine (mem_dedup_riskList_resource _ _ _ _ _).mpr ?_
      rw [h]
      decide
  · decide

/-- Witness for C8 at the worked example context. -/
theorem rainfed_triggers_weather_and_resource_witness :
    WEATHER_RISK ∈ categorize_risks rainfedLoanContext ∧
      RESOURCE_RISK ∈ categorize_risks rainfedLoanContext :=
  rainfed_triggers_weather_and_resource.1 rainfedLoanContext rfl

/-- The value of an extracted field is valid for its registry: when present
it is a canonical key of the registry (hence never the empty string). -/
def registryValid (o : Option PyStr) (reg : List (PyStr × List PyStr)) : Prop :=
  ∀ v, o = some v → (∃ kws, (v, kws) ∈ reg) ∧ v ≠ []

lemma _match_first_mem (text : PyStr) :
    ∀ (reg : List (PyStr × List PyStr)) (v : PyStr),
      _match_first text reg = some v → ∃ kws, (v, kws) ∈ reg := by
  intro reg
  induction reg with
  | nil => intro v h; exact absurd h (by simp [_match_first])
  | cons e rest ih =>
    intro v h
    obtain ⟨c0, k0⟩ := e
    by_cases h0 : entryMatches text k0 = true
    · rw [show _match_first text ((c0, k0) :: rest) = some c0 by
        simp [_match_first, h0]] at h
      cases h
      exact ⟨k0, List.mem_cons_self _ _⟩
    · rw [show _match_first text ((c0, k0) :: rest) = _match_first text rest by
        simp [_match_first, h0]] at h
      obtain ⟨kws, hmem⟩ := ih v h
      exact ⟨kws, List.mem_cons_of_mem _ hmem⟩

lemma matchFirst_registryValid (text : PyStr) (reg : List (PyStr × List PyStr))
    (hkeys : ∀ p ∈ reg, p.1 ≠ ([] : PyStr)) :
    registryValid (_match_first text reg) reg := by
  intro v hv
  obtain ⟨kws, hmem⟩ := _match_first_mem text reg v hv
  exact ⟨⟨kws, hmem⟩, hkeys (v, kws) hmem⟩

/-- C9: on every input that is non-empty after trimming, `extract_entities`
succeeds with the six-key record (the record type carries exactly the keys
`crop`, `month`, `location`, `irrigation`, `market_dependency`,
`financial_dependency`), and every present value is a canonical key of its
keyword registry — never an empty string. -/
theorem extract_entities_six_registry_valid_fields :
    ∀ text : PyStr, pyStrip text ≠ [] →
      ∃ r, extract_entities text = some r ∧
        registryValid r.crop _CROP_KEYWORDS ∧
        registryValid r.month _MONTH_KEYWORDS ∧
        registryValid r.location _LOCATION_KEYWORDS ∧
        registryValid r.irrigation _IRRIGATION_KEYWORDS ∧
        registryValid r.market_dependency _MARKET_DEPENDENCY_KEYWORDS ∧
        registryValid r.financial_dependency _FINANCIAL_DEPENDENCY_KEYWORDS := by
  intro text h
  refine ⟨{ crop := _match_first (pyLower text) _CROP_KEYWORDS,
            month := _match_first (pyLower text) _MONTH_KEYWORDS,
            location := _match_first (pyLower text) _LOCATION_KEYWORDS,
            irrigation := _match_first (pyLower text) _IRRIGATION_KEYWORDS,
            market_dependency := _match_first (pyLower text) _MARKET_DEPENDENCY_KEYWORDS,
            financial_dependency :=
              _match_first (pyLower text) _FINANCIAL_DEPENDENCY_KEYWORDS },
          ?_, ?_, ?_, ?_, ?_, ?_, ?_⟩
  · unfold extract_entities
    rw [if_neg h]
  · exact matchFirst_registryValid _ _ (by decide)
  · exact matchFirst_registryValid _ _ (by decide)
  · exact matchFirst_registryValid _ _ (by decide)
  · exact matchFirst_registryValid _ _ (by decide)
  · exact matchFirst_registryValid _ _ (by decide)
  · exact matchFirst_registryValid _ _ (by decide)

/-- Witness for C9 at the concrete input `"rice"`. -/
theorem extract_entities_six_registry_valid_fields_witness :
    ∃ r, extract_entities (pys "rice") = some r ∧
      registryValid r.crop _CROP_KEYWORDS ∧
      registryValid r.month _MONTH_KEYWORDS ∧
      registryValid r.location _LOCATION_KEYWORDS ∧
      registryValid r.irrigation _IRRIGATION_KEYWORDS ∧
      registryValid r.market_dependency _MARKET_DEPENDENCY_KEYWORDS ∧
      registryValid r.financial_dependency _FINANCIAL_DEPENDENCY_KEYWORDS :=
  extract_entities_six_registry_valid_fields (pys "rice") (by decide)

lemma getSec_appendSec (s : Sections) (h' : Header) (l : PyStr) (h : Header) :
    getSec (appendSec s h' l) h = getSec s h ++ (if h = h' then [l] else []) := by
  cases h' <;> cases h <;> simp [getSec, appendSec]

lemma sectionsStep_append (st : Sections × Option Header) (line : PyStr) (h : Header) :
    ∃ suf, getSec (sectionsStep st line).1 h = getSec st.1 h ++ suf := by
  unfold sectionsStep
  cases hf : findHeader (pyStrip line) with
  | some h' =>
    by_cases hr : pyStrip ((pyStrip line).drop (headerStr h').length) = []
    · exact ⟨[], by simp [hf, hr]⟩
    · refine ⟨if h = h' then [pyStrip ((pyStrip line).drop (headerStr h').length)]
        else [], ?_⟩
      simp only [hf, if_neg hr]
      exact getSec_appendSec st.1 h' _ h
  | none =>
    cases hc : st.2 with
    | some h' =>
      refine ⟨if h = h' then [pyStrip line] else [], ?_⟩
      simp only [hf, hc]
      exact getSec_appendSec st.1 h' _ h
    | none => exact ⟨[], by simp [hf, hc]⟩

lemma runSections_append (lines : List PyStr) :
    ∀ (st : Sections × Option Header) (h : Header),
      ∃ suf, getSec ((lines.foldl sectionsStep st).1) h = getSec st.1 h ++ suf := by
  induction lines with
  | nil => intro st h; exact ⟨[], (List.append_nil _).symm⟩
  | cons l rest ih =>
    intro st h
    obtain ⟨s2, h2⟩ := ih (sectionsStep st l) h
    obtain ⟨s1, h1⟩ := sectionsStep_append st l h
    refine ⟨s1 ++ s2, ?_⟩
    rw [List.foldl_cons, h2, h1, List.append_assoc]

/-- C10: the section splitter only ever appends — processing any further
lines can only extend each header's accumulated line list, never replace it —
so repeated occurrences of one header merge in input order; concretely, with
two `RISK_SCORE` sections the first in-range integer across the merged lines
wins (in either order), bullet extraction runs over the merged
`HIGH_RISKS` lines including inline remainders, and the merged section
dictionary is exactly as accumulated. -/
theorem extract_sections_merges_repeated_headers :
    (∀ (lines : List PyStr) (st : Sections × Option Header) (h : Header),
        ∃ suf, getSec ((lines.foldl sectionsStep st).1) h = getSec st.1 h ++ suf)
    ∧ (parse_llm_response (pys "RISK_SCORE: 15\nHIGH_RISKS:\n* x\nRISK_SCORE: 7")).risk_score
        = some 7
    ∧ (parse_llm_response (pys "RISK_SCORE: 7\nHIGH_RISKS:\nRISK_SCORE: 15")).risk_score
        = some 7
    ∧ (parse_llm_response (pys "HIGH_RISKS: * a\nRISK_SCORE: 3\nHIGH_RISKS:\n* b")).high_risks
        = [pys "a", pys "b"]
    ∧ _extract_sections (pys "RISK_SCORE: 15\nHIGH_RISKS:\n* x\nRISK_SCORE: 7")
        = { riskScore := [pys "15", pys "7"], highRisks := [pys "* x"] } :=
  ⟨fun lines st h => runSections_append lines st h,
   by decide, by decide, by decide, by decide⟩

lemma isPrefixOf_eq_true_iff :
    ∀ l1 l2 : PyStr, l1.isPrefixOf l2 = true ↔ ∃ t, l2 = l1 ++ t := by
  intro l1
  induction l1 with
  | nil =>
    intro l2
    simp [List.isPrefixOf]
  | cons a as ih =>
    intro l2
    cases l2 with
    | nil =>
      simp [List.isPrefixOf]
    | cons b bs =>
      simp only [List.isPrefixOf, Bool.and_eq_true, beq_iff_eq, ih bs,
        List.cons_append, List.cons.injEq]
      constructor
      · rintro ⟨rfl, t, rfl⟩
        exact ⟨t, rfl, rfl⟩
      · rintro ⟨t, rfl, rfl⟩
        exact ⟨rfl, t, rfl⟩

lemma substrMatch_eq_true_iff (kw : PyStr) :
    ∀ text : PyStr, substrMatch kw text = true ↔ ∃ pre post, text = pre ++ (kw ++ post) := by
  intro text
  induction text with
  | nil =>
    simp only [substrMatch, isPrefixOf_eq_true_iff]
    constructor
    · rintro ⟨t, ht⟩
      exact ⟨[], t, ht⟩
    · rintro ⟨pre, post, heq⟩
      cases pre with
      | nil => exact ⟨post, heq⟩
      | cons d pre' => exact absurd heq (by simp)
  | cons c rest ih =>
    simp only [substrMatch, Bool.or_eq_true, isPrefixOf_eq_true_iff, ih]
    constructor
    · rintro (⟨t, ht⟩ | ⟨pre, post, rfl⟩)
      · exact ⟨[], t, ht⟩
      · exact ⟨c :: pre, post, rfl⟩
    · rintro ⟨pre, post, heq⟩
      cases pre with
      | nil => exact Or.inl ⟨post, heq⟩
      | cons d pre' =>
        right
        rw [List.cons_append, List.cons.injEq] at heq
        exact ⟨pre', post, heq.2⟩

lemma getLast?_cons_or :
    ∀ (pre : PyStr) (c : Char) (prev : Option Char),
      ((c :: pre).getLast?).or prev = (pre.getLast?).or (some c) := by
  intro pre
  induction pre with
  | nil => intro c prev; rfl
  | cons d pre' ih =>
    intro c prev
    rw [List.getLast?_cons_cons, ih d prev, ih d (some c)]

lemma wbSearchAux_eq_true_iff (kw : PyStr) :
    ∀ (text : PyStr) (prev : Option Char),
      wbSearchAux kw prev text = true ↔
        ∃ pre post, text = pre ++ (kw ++ post) ∧
          boundaryBefore ((pre.getLast?).or prev) = true ∧ boundaryAfter post = true := by
  intro text
  induction text with
  | nil =>
    intro prev
    simp only [wbSearchAux, Bool.and_true, Bool.and_eq_true, isPrefixOf_eq_true_iff]
    constructor
    · rintro ⟨hb, t, ht⟩
      have h1 : kw ++ t = [] := ht.symm
      rw [List.append_eq_nil] at h1
      obtain ⟨rfl, rfl⟩ := h1
      exact ⟨[], [], rfl, hb, rfl⟩
    · rintro ⟨pre, post, heq, hb, ha⟩
      have h1 : pre ++ (kw ++ post) = [] := heq.symm
      rw [List.append_eq_nil, List.append_eq_nil] at h1
      obtain ⟨rfl, rfl, rfl⟩ := h1
      exact ⟨hb, [], rfl⟩
  | cons c rest ih =>
    intro prev
    simp only [wbSearchAux, Bool.or_eq_true, Bool.and_eq_true, isPrefixOf_eq_true_iff,
      ih (some c)]
    constructor
    · rintro (⟨⟨hb, t, ht⟩, ha⟩ | ⟨pre, post, heq, hb, ha⟩)
      · refine ⟨[], t, by simpa using ht, by simpa using hb, ?_⟩
        rw [ht, List.drop_left] at ha
        exact ha
      · refine ⟨c :: pre, post, by simp [heq], ?_, ha⟩
        rw [getLast?_cons_or]
        exact hb
    · rintro ⟨pre, post, heq, hb, ha⟩
      cases pre with
      | nil =>
        left
        refine ⟨⟨by simpa using hb, post, by simpa using heq⟩, ?_⟩
        rw [show c :: rest = kw ++ post by simpa using heq, List.drop_left]
        exact ha
      | cons d pre' =>
        right
        rw [List.cons_append, List.cons.injEq] at heq
        obtain ⟨rfl, heq'⟩ := heq
        refine ⟨pre', post, heq', ?_, ha⟩
        rw [getLast?_cons_or] at hb
        exact hb

lemma wbMatch_eq_true_iff (kw text : PyStr) :
    wbMatch kw text = true ↔
      ∃ pre post, text = pre ++ (kw ++ post) ∧
        boundaryBefore pre.getLast? = true ∧ boundaryAfter post = true := by
  unfold wbMatch
  rw [wbSearchAux_eq_true_iff]
  constructor
  · rintro ⟨pre, post, heq, hb, ha⟩
    exact ⟨pre, post, heq, by rwa [Option.or_none] at hb, ha⟩
  · rintro ⟨pre, post, heq, hb, ha⟩
    exact ⟨pre, post, heq, by rwa [Option.or_none], ha⟩

lemma matchFirst_first_entry (text : PyStr) :
    ∀ (reg : List (PyStr × List PyStr)) (canon : PyStr) (kws : List PyStr),
      (canon, kws) ∈ reg → entryMatches text kws = true →
      ∃ pre c' kws' post, reg = pre ++ (c', kws') :: post ∧
        entryMatches text kws' = true ∧
        (∀ p ∈ pre, entryMatches text p.2 = false) ∧
        _match_first text reg = some c' := by
  intro reg
  induction reg with
  | nil => intro canon kws h; exact absurd h (by simp)
  | cons e rest ih =>
    intro canon kws hmem hmatch
    obtain ⟨c0, k0⟩ := e
    by_cases h0 : entryMatches text k0 = true
    · exact ⟨[], c0, k0, rest, rfl, h0, by simp, by simp [_match_first, h0]⟩
    · have hmem' : (canon, kws) ∈ rest := by
        rcases List.mem_cons.mp hmem with heq | htail
        · obtain ⟨rfl, rfl⟩ := Prod.mk.injEq .. ▸ heq
          exact absurd hmatch h0
        · exact htail
      obtain ⟨pre, c', kws', post, hreg, hm', hpre, hfind⟩ := ih canon kws hmem' hmatch
      refine ⟨(c0, k0) :: pre, c', kws', post, by rw [List.cons_append, hreg], hm', ?_, ?_⟩
      · intro p hp
        rcases List.mem_cons.mp hp with rfl | hp'
        · simpa using h0
        · exact hpre p hp'
      · rw [show _match_first text ((c0, k0) :: rest) = _match_first text rest by
          simp [_match_first, h0]]
        exact hfind

/-- C6: (1) registry precedence — whenever some crop entry's keywords match
the (lowercased) text, the extracted crop is the canonical label of the first
matching entry in the fixed registry order, regardless of where keywords
occur in the text; (2) a single-word keyword matches exactly when it occurs
with no word character adjacent on either side (so never inside a longer
token); (3) a multi-word phrase matches by plain substring containment. -/
theorem extract_entities_crop_registry_precedence :
    (∀ (text canon : PyStr) (kws : List PyStr),
        (canon, kws) ∈ _CROP_KEYWORDS →
        entryMatches (pyLower text) kws = true →
        pyStrip text ≠ [] →
        ∃ pre c' kws' post r,
          _CROP_KEYWORDS = pre ++ (c', kws') :: post ∧
          entryMatches (pyLower text) kws' = true ∧
          (∀ p ∈ pre, entryMatches (pyLower text) p.2 = false) ∧
          extract_entities text = some r ∧ r.crop = some c')
    ∧ (∀ kw text : PyStr, kw.contains ' ' = false →
        (keywordMatch text kw = true ↔
          ∃ pre post, text = pre ++ (kw ++ post) ∧
            boundaryBefore pre.getLast? = true ∧ boundaryAfter post = true))
    ∧ (∀ kw text : PyStr, kw.contains ' ' = true →
        (keywordMatch text kw = true ↔ ∃ pre post, text = pre ++ (kw ++ post))) := by
  refine ⟨?_, ?_, ?_⟩
  · intro text canon kws hmem hmatch hne
    obtain ⟨pre, c', kws', post, hreg, hm', hpre, hfind⟩ :=
      matchFirst_first_entry (pyLower text) _CROP_KEYWORDS canon kws hmem hmatch
    refine ⟨pre, c', kws', post,
      { crop := _match_first (pyLower text) _CROP_KEYWORDS,
        month := _match_first (pyLower text) _MONTH_KEYWORDS,
        location := _match_first (pyLower text) _LOCATION_KEYWORDS,
        irrigation := _match_first (pyLower text) _IRRIGATION_KEYWORDS,
        market_dependency := _match_first (pyLower text) _MARKET_DEPENDENCY_KEYWORDS,
        financial_dependency := _match_first (pyLower text) _FINANCIAL_DEPENDENCY_KEYWORDS },
      hreg, hm', hpre, ?_, hfind⟩
    unfold extract_entities
    rw [if_neg hne]
  · intro kw text h
    rw [show keywordMatch text kw = wbMatch kw text by unfold keywordMatch; rw [h]; rfl]
    exact wbMatch_eq_true_iff kw text
  · intro kw text h
    rw [show keywordMatch text kw = substrMatch kw text by unfold keywordMatch; rw [h]; rfl]
    exact substrMatch_eq_true_iff kw text

/-- Witness for C6: precedence at `"wheat and rice"` (both `wheat` and `rice`
match; the registry-first entry `rice` wins), word-boundary matching at
`"ricefield"` (where `rice` occurs only inside a longer token), and substring
matching of the phrase `"sugar cane"`. -/
theorem extract_entities_crop_registry_precedence_witness :
    (∃ pre c' kws' post r,
        _CROP_KEYWORDS = pre ++ (c', kws') :: post ∧
        entryMatches (pyLower (pys "wheat and rice")) kws' = true ∧
        (∀ p ∈ pre, entryMatches (pyLower (pys "wheat and rice")) p.2 = false) ∧
        extract_entities (pys "wheat and rice") = some r ∧ r.crop = some c')
    ∧ (keywordMatch (pys "ricefield") (pys "rice") = true ↔
        ∃ pre post, pys "ricefield" = pre ++ (pys "rice" ++ post) ∧
          boundaryBefore pre.getLast? = true ∧ boundaryAfter post = true)
    ∧ (keywordMatch (pys "grows sugar cane here") (pys "sugar cane") = true ↔
        ∃ pre post, pys "grows sugar cane here" = pre ++ (pys "sugar cane" ++ post)) :=
  ⟨extract_entities_crop_registry_precedence.1 (pys "wheat and rice") (pys "wheat")
      [pys "wheat"] (by decide) (by decide) (by decide),
    extract_entities_crop_registry_precedence.2.1 (pys "rice") (pys "ricefield")
      (by decide),
    extract_entities_crop_registry_precedence.2.2 (pys "sugar cane")
      (pys "grows sugar cane here") (by decide)⟩

end MunEcharikkai
